import Mathlib

/-!
Shallow embedding of the chorse-go account-management service, translated
from the Go source: the token service (createJwt / validateJwt), the JWT
access gate (withJwtAuth), the OAuth callback (handleAuthCallback), the
PostgresStore storage operations, and the account route handlers.

Conventions of the embedding:
- A JWT wire string is modelled by `TokenStr`: either `malformed` (any
  string that does not parse as a JWT, including the empty string produced
  by a missing header) or `wellFormed t` carrying the structured token.
- HMAC is modelled as an ideal MAC: the signature of a token is the symbolic
  record of the algorithm, the key and the signed claims, so two signatures
  agree exactly when algorithm, key and claims all agree.
- The database is a `Store` value: a list of account rows and a list of
  discord_user rows.  The discord_user table of the DDL declares no primary
  key and no unique constraint on id, so an insert always appends a row and
  never fails with a conflict; this is mirrored by `CreateDiscordUser`.
- External effects of the OAuth callback (the provider's exchange and
  profile responses, and a possible database fault of the existence query)
  are inputs of the run, bundled in `CallbackWorld`.
-/

/-- Signing algorithms a parsed JWT header can carry. `algNone` is the
unsigned "none" algorithm. -/
inductive Alg
  | HS256
  | HS384
  | HS512
  | RS256
  | ES256
  | algNone
deriving DecidableEq, Repr

/-- The HMAC family test performed by validateJwt's key function: the Go
code checks that token.Method is a *jwt.SigningMethodHMAC, which holds
exactly for HS256, HS384 and HS512. -/
def Alg.isHMAC : Alg → Bool
  | .HS256 => true
  | .HS384 => true
  | .HS512 => true
  | _ => false

/-- The claim set written by createJwt: a fixed expiresAt value and the
account number (jwt.MapClaims in the source). -/
structure MapClaims where
  expiresAt : Int
  accountNumber : Int
deriving DecidableEq, Repr

/-- Ideal-MAC model of an HMAC signature: the signature is the symbolic
record of the algorithm, key and signed payload, so signatures of distinct
keys never collide. -/
structure Signature where
  alg : Alg
  key : String
  payload : MapClaims
deriving DecidableEq, Repr

/-- Signing primitive of the ideal-MAC model. -/
def hmacSign (alg : Alg) (key : String) (payload : MapClaims) : Signature :=
  { alg := alg, key := key, payload := payload }

/-- A structurally well-formed JWT: header algorithm, claim set, signature. -/
structure JwtToken where
  alg : Alg
  claims : MapClaims
  sig : Signature
deriving DecidableEq, Repr

/-- A JWT wire string: `malformed` stands for any string that does not parse
as a JWT (jwt.Parse fails on it before the key function runs); `wellFormed`
carries the parsed token. -/
inductive TokenStr
  | malformed
  | wellFormed (t : JwtToken)
deriving DecidableEq, Repr

/-- Process configuration: the JWT_SECRET environment value read by
createJwt and validateJwt. -/
structure Env where
  jwtSecret : String
deriving DecidableEq, Repr

/-- Account row of the account table (id, first_name, last_name, number,
balance, created_at). Timestamps are abstracted to a Nat. -/
structure Account where
  id : Int
  firstName : String
  lastName : String
  number : Int
  balance : Int
  createdAt : Nat
deriving DecidableEq, Repr

/-- Row of the discord_user table (id, global_name, avatar); the last_sign_in
column is database-defaulted and not set by the code, so it is omitted. -/
structure DiscordUser where
  id : String
  globalName : String
  avatar : String
deriving DecidableEq, Repr

/-- The zero value a Go `&DiscordUser{}` starts with; json.Decode leaves the
target at this value when the payload is malformed. -/
def zeroDiscordUser : DiscordUser :=
  { id := "", globalName := "", avatar := "" }

/-- Database state: the account rows, the serial counter backing the account
id column, and the discord_user rows. -/
structure Store where
  nextAccountId : Int
  accounts : List Account
  discordUsers : List DiscordUser
deriving DecidableEq, Repr

/-- The empty database right after Init. -/
def emptyStore : Store :=
  { nextAccountId := 1, accounts := [], discordUsers := [] }

/-- validateJwt: jwt.Parse with a key function that rejects any non-HMAC
signing method and otherwise supplies JWT_SECRET as the key; the parse
succeeds exactly when the string parses, the algorithm is in the HMAC
family, and the signature verifies under JWT_SECRET. -/
def validateJwt (env : Env) (tokenStr : TokenStr) : Except String JwtToken :=
  match tokenStr with
  | .malformed => .error "token contains an invalid number of segments"
  | .wellFormed t =>
    if t.alg.isHMAC then
      if t.sig = hmacSign t.alg env.jwtSecret t.claims then .ok t
      else .error "signature is invalid"
    else .error "unexpected signing method"

/-- createJwt: builds MapClaims with the fixed expiresAt 15000 and the
account's number, and signs them HS256 with JWT_SECRET.  SignedString with
an HMAC method and a byte-slice key cannot fail, so the result is the token
itself. -/
def createJwt (env : Env) (account : Account) : TokenStr :=
  let claims : MapClaims := { expiresAt := 15000, accountNumber := account.number }
  .wellFormed { alg := .HS256, claims := claims, sig := hmacSign .HS256 env.jwtSecret claims }

/-- HTTP method of a request. -/
inductive Method
  | GET
  | POST
  | DELETE
  | PUT
deriving DecidableEq, Repr

/-- Response bodies the embedded handlers can write.  jsonApiError models
WriteJson of an ApiError value, jsonAccount WriteJson of an account row,
jsonNull WriteJson of nil, text a plain-text write, htmlError the
makeHttpHandleFunc error page, and empty the absence of any write (Go then
sends 200 with an empty body). -/
inductive Body
  | jsonApiError (msg : String)
  | jsonAccount (a : Account)
  | jsonNull
  | text (s : String)
  | htmlError (msg : String)
  | empty
deriving DecidableEq, Repr

/-- An HTTP response: status code and body. -/
structure Response where
  status : Nat
  body : Body
deriving DecidableEq, Repr

/-- An inbound request to the protected account/{id} route: method, the
x-jwt-token header (none when the header is absent), and the id path value
after strconv.Atoi (none when the segment is not numeric). -/
structure Request where
  method : Method
  xJwtToken : Option TokenStr
  pathId : Option Int
deriving DecidableEq, Repr

/-- Header.Get on x-jwt-token: an absent header yields the empty string,
which does not parse as a JWT. -/
def headerGet : Option TokenStr → TokenStr
  | none => .malformed
  | some t => t

/-- withJwtAuth: reads the x-jwt-token header, validates it, and on any
validation error writes 403 with the ApiError body "invalid token" without
calling the wrapped handler; on success it calls the wrapped handler
unconditionally (the claim printout in the source has no effect on the
response). -/
def withJwtAuth (env : Env) (handlerFunc : Request → Store → Response × Store)
    (r : Request) (s : Store) : Response × Store :=
  match validateJwt env (headerGet r.xJwtToken) with
  | .error _ => ({ status := 403, body := .jsonApiError "invalid token" }, s)
  | .ok _ => handlerFunc r s

/-- C1: for every account, minting a token with createJwt and verifying it
with validateJwt under the same secret succeeds, and the verified claim
set's accountNumber equals the account's number. -/
theorem createJwt_validateJwt_roundtrip (env : Env) (account : Account) :
    ∃ t : JwtToken, validateJwt env (createJwt env account) = .ok t ∧
      t.claims.accountNumber = account.number := by
  refine ⟨{ alg := .HS256
            claims := { expiresAt := 15000, accountNumber := account.number }
            sig := hmacSign .HS256 env.jwtSecret
              { expiresAt := 15000, accountNumber := account.number } }, ?_, rfl⟩
  simp [validateJwt, createJwt, Alg.isHMAC]

/-- C3: a well-formed token whose signature was produced under a different
key than JWT_SECRET, or whose algorithm is outside the HMAC family
(asymmetric or none), is rejected by validateJwt with an error. -/
theorem validateJwt_rejects_wrong_secret_or_alg (env : Env) (t : JwtToken)
    (h : t.sig.key ≠ env.jwtSecret ∨ t.alg.isHMAC = false) :
    ∃ e, validateJwt env (.wellFormed t) = .error e := by
  rcases h with hkey | halg
  · by_cases hm : t.alg.isHMAC
    · refine ⟨"signature is invalid", ?_⟩
      have hne : t.sig ≠ hmacSign t.alg env.jwtSecret t.claims := by
        intro hEq
        exact hkey (congrArg Signature.key hEq)
      simp [validateJwt, hm, hne]
    · exact ⟨"unexpected signing method", by simp [validateJwt, hm]⟩
  · exact ⟨"unexpected signing method", by simp [validateJwt, halg]⟩

/-- Witness for C3 at a concrete input: an RS256 token signed under key
"other" is rejected when JWT_SECRET is "s3cret". -/
theorem validateJwt_rejects_wrong_secret_or_alg_witness :
    let t : JwtToken :=
      { alg := .RS256
        claims := { expiresAt := 0, accountNumber := 7 }
        sig := hmacSign .RS256 "other" { expiresAt := 0, accountNumber := 7 } }
    let env : Env := { jwtSecret := "s3cret" }
    (t.sig.key ≠ env.jwtSecret ∨ t.alg.isHMAC = false) ∧
      ∃ e, validateJwt env (.wellFormed t) = .error e :=
  ⟨by decide, validateJwt_rejects_wrong_secret_or_alg _ _ (by decide)⟩

/-- C2: the access gate invokes the wrapped handler exactly when the header
token validates, and otherwise (including when the header is absent)
responds 403 with the ApiError body "invalid token" and leaves the store
untouched.  The equation holds for every wrapped handler and every request,
so in particular the gate performs no comparison between the token's
accountNumber claim and the id the request path targets. -/
theorem withJwtAuth_gate (env : Env) (handlerFunc : Request → Store → Response × Store)
    (r : Request) (s : Store) :
    (withJwtAuth env handlerFunc r s =
      if (validateJwt env (headerGet r.xJwtToken)).isOk then handlerFunc r s
      else ({ status := 403, body := .jsonApiError "invalid token" }, s)) ∧
    withJwtAuth env handlerFunc { r with xJwtToken := none } s =
      ({ status := 403, body := .jsonApiError "invalid token" }, s) := by
  constructor
  · unfold withJwtAuth
    cases validateJwt env (headerGet r.xJwtToken) <;> simp [Except.isOk, Except.toBool]
  · rfl

/-- Provider access token returned by the authorization-code exchange. -/
structure OAuthToken where
  accessToken : String
deriving DecidableEq, Repr

/-- DiscordUserExists, pure part: the query `select 1 from discord_user
where id = $1` scans a row exactly when some stored row has the id; an
absent row is ErrNoRows, which the method turns into (false, nil). -/
def DiscordUserExists (s : Store) (id : String) : Bool :=
  s.discordUsers.any (fun u => u.id == id)

/-- DiscordUserExists, full contract: the database query can also fail with
a transport or server error, which the method propagates as (false, err).
The possible fault is an input of the run. -/
def discordUserExistsOp (dbFault : Option String) (s : Store) (id : String) :
    Except String Bool :=
  match dbFault with
  | some e => .error e
  | none => .ok (DiscordUserExists s id)

/-- CreateDiscordUser: `insert into discord_user(id, global_name, avatar)`.
The DDL declares no primary key and no unique constraint on id, so the
insert appends a row unconditionally and never fails with a conflict. -/
def CreateDiscordUser (s : Store) (user : DiscordUser) : Store :=
  { s with discordUsers := s.discordUsers ++ [user] }

/-- Inputs of one handleAuthCallback run: the request's state and code form
values, together with the outcomes the external collaborators produce for
this run — the provider's exchange result, the profile fetch result (a
transport error, or a status code paired with the decode outcome of the
body, where `none` models a malformed payload), and a possible database
fault of the existence query. -/
structure CallbackWorld where
  state : String
  code : String
  exchange : Except String OAuthToken
  fetch : Except String (Nat × Option DiscordUser)
  existsFault : Option String

/-- quickErr: WriteHeader(500) followed by the error text. -/
def quickErr (e : String) : Response :=
  { status := 500, body := .text e }

/-- Status line text written when the profile fetch returns a non-200
status (res.Status in the source); the embedding renders it from the
code. -/
def statusLineText (status : Nat) : String :=
  toString status

/-- handleAuthCallback, translated branch by branch from the source.
Two slips of the source are mirrored faithfully rather than repaired:
(1) the decode step is `if json.NewDecoder(res.Body).Decode(&user); err != nil`,
which evaluates the decode but tests the stale err of the profile fetch —
nil on every path that reaches this line — so a malformed payload is never
reported and `user` keeps its zero value while the flow continues;
(2) after the existence query fails, quickErr writes the 500 response but
the code does not return, and since the failed query returned exists=false
the insert still runs. -/
def handleAuthCallback (w : CallbackWorld) (s : Store) : Response × Store :=
  if w.state ≠ "randomstate" then
    ({ status := 400, body := .text "State does not match." }, s)
  else
    match w.exchange with
    | .error e => (quickErr e, s)
    | .ok _token =>
      match w.fetch with
      | .error e => ({ status := 500, body := .text e }, s)
      | .ok (status, payload) =>
        if status ≠ 200 then
          ({ status := 500, body := .text (statusLineText status) }, s)
        else
          let user := payload.getD zeroDiscordUser
          match discordUserExistsOp w.existsFault s user.id with
          | .error e => (quickErr e, CreateDiscordUser s user)
          | .ok exists_ =>
            if exists_ then ({ status := 200, body := .empty }, s)
            else ({ status := 200, body := .empty }, CreateDiscordUser s user)

/-- CreateAccount: the insert supplies first_name, last_name, balance,
number and created_at, the serial id column assigns the next id, and the
returning clause hands the inserted row back. -/
def CreateAccount (s : Store) (account : Account) : Account × Store :=
  let dbAccount := { account with id := s.nextAccountId }
  (dbAccount,
   { s with accounts := s.accounts ++ [dbAccount], nextAccountId := s.nextAccountId + 1 })

/-- DeleteAccount: `delete from account where id = $1`; deleting rows that
do not exist is not an error, the statement simply affects zero rows. -/
def DeleteAccount (s : Store) (id : Int) : Except String Unit × Store :=
  (.ok (), { s with accounts := s.accounts.filter (fun a => a.id ≠ id) })

/-- UpdateAccount: the method body is `return nil`. -/
def UpdateAccount (s : Store) (_account : Account) : Except String Unit × Store :=
  (.ok (), s)

/-- GetAccountById: CollectExactlyOneRow over `select * from account where
id = $1`; ErrNoRows is turned into (nil, nil). -/
def GetAccountById (s : Store) (id : Int) : Except String (Option Account) :=
  .ok (s.accounts.find? (fun a => a.id == id))

/-- Body of a POST /account request after JSON decoding. -/
structure CreateAccountRequest where
  firstName : String
  lastName : String
deriving DecidableEq, Repr

/-- Modelled from the spec: the account constructor `NewAccount` lives in a
types file of the repository that is not present under src/.  Per the spec
it builds a fresh account whose public account number is server-assigned
and non-zero, with the balance starting at zero and a creation timestamp;
the fresh number is supplied by the server context as `freshNumber` and the
timestamp is abstracted to zero. -/
def NewAccount (freshNumber : Int) (firstName lastName : String) : Account :=
  { id := 0, firstName := firstName, lastName := lastName
    number := freshNumber, balance := 0, createdAt := 0 }

/-- Result of one handleCreateAccount run: the HTTP response, the store
after the insert, and the token string the handler prints to the server's
standard output (`fmt.Printf("JWT Token: ...")` in the source). -/
structure CreateAccountResult where
  response : Response
  store : Store
  printedToken : TokenStr
deriving Repr

/-- handleCreateAccount: decodes the request (the decoded value is the
input here), builds the account with NewAccount, inserts it, mints a token
for the pre-insert account value, prints the token to stdout, and responds
200 with the database row as the JSON body.  The token appears nowhere in
the response. -/
def handleCreateAccount (env : Env) (freshNumber : Int)
    (accRequest : CreateAccountRequest) (s : Store) : CreateAccountResult :=
  let account := NewAccount freshNumber accRequest.firstName accRequest.lastName
  let (dbAccount, s2) := CreateAccount s account
  let tokenStr := createJwt env account
  { response := { status := 200, body := .jsonAccount dbAccount }
    store := s2
    printedToken := tokenStr }

/-- handleGetAccount: 404 with JSON null when the id resolves to no row,
otherwise 200 with the row. -/
def handleGetAccount (s : Store) (id : Int) : Except String Response × Store :=
  match GetAccountById s id with
  | .error e => (.error e, s)
  | .ok none => (.ok { status := 404, body := .jsonNull }, s)
  | .ok (some account) => (.ok { status := 200, body := .jsonAccount account }, s)

/-- handleDeleteAccount: delete by id, then 200 with JSON null. -/
def handleDeleteAccount (s : Store) (id : Int) : Except String Response × Store :=
  match DeleteAccount s id with
  | (.error e, s2) => (.error e, s2)
  | (.ok _, s2) => (.ok { status := 200, body := .jsonNull }, s2)

/-- handleOneAccount: parses the id path value (an Atoi failure is the
"invalid id given" error) and dispatches on the method; GET reads, DELETE
deletes, anything else is "method not allowed". -/
def handleOneAccount (r : Request) (s : Store) : Except String Response × Store :=
  match r.pathId with
  | none => (.error "invalid id given", s)
  | some id =>
    match r.method with
    | .GET => handleGetAccount s id
    | .DELETE => handleDeleteAccount s id
    | _ => (.error "method not allowed", s)

/-- makeHttpHandleFunc: runs the apiFunc and renders a returned error as a
500 HTML error page. -/
def makeHttpHandleFunc (f : Request → Store → Except String Response × Store)
    (r : Request) (s : Store) : Response × Store :=
  match f r s with
  | (.ok resp, s2) => (resp, s2)
  | (.error e, s2) => ({ status := 500, body := .htmlError e }, s2)

/-- The /account/{id} route as registered in Run: withJwtAuth wrapping
makeHttpHandleFunc wrapping handleOneAccount. -/
def accountIdRoute (env : Env) (r : Request) (s : Store) : Response × Store :=
  withJwtAuth env (makeHttpHandleFunc handleOneAccount) r s

/-- C4: a callback whose state form value differs from the expected
"randomstate" answers 400 with the plain-text body "State does not match."
and leaves the store untouched.  The equation holds for every world with a
mismatched state, whatever the exchange, fetch and database components
would have produced, so no provider call can influence (or be observed by)
such a run. -/
theorem handleAuthCallback_state_mismatch (w : CallbackWorld) (s : Store)
    (h : w.state ≠ "randomstate") :
    handleAuthCallback w s = ({ status := 400, body := .text "State does not match." }, s) := by
  simp [handleAuthCallback, h]

/-- Witness for C4 at a concrete input: a forged state value is rejected
with 400 even though every collaborator outcome is available and benign. -/
theorem handleAuthCallback_state_mismatch_witness :
    let w : CallbackWorld :=
      { state := "forged", code := "c", exchange := .ok { accessToken := "t" }
        fetch := .ok (200, some zeroDiscordUser), existsFault := none }
    w.state ≠ "randomstate" ∧
      handleAuthCallback w emptyStore =
        ({ status := 400, body := .text "State does not match." }, emptyStore) :=
  ⟨by decide, handleAuthCallback_state_mismatch _ _ (by decide)⟩

/-- C5 failing run: a first callback links the identity; a second callback
for the same identifier hits a transient database failure of the existence
query.  quickErr writes the 500 response but the source does not return
there, the failed query reported exists=false, and the discord_user table
has no unique constraint, so a second row for the same identifier is
inserted: two rows exist afterwards. -/
theorem discordUser_duplicate_row_created :
    let u : DiscordUser := { id := "485103041738047489", globalName := "wes", avatar := "a.png" }
    let w1 : CallbackWorld :=
      { state := "randomstate", code := "c1", exchange := .ok { accessToken := "t1" }
        fetch := .ok (200, some u), existsFault := none }
    let w2 : CallbackWorld :=
      { state := "randomstate", code := "c2", exchange := .ok { accessToken := "t2" }
        fetch := .ok (200, some u), existsFault := some "db connection failure" }
    let s1 := (handleAuthCallback w1 emptyStore).2
    let out := handleAuthCallback w2 s1
    ((out.2.discordUsers.filter (fun x => x.id == u.id)).length = 2) ∧
      out.1 = { status := 500, body := .text "db connection failure" } := by
  decide

/-- C6 failing runs: run A fails at the existence check yet still inserts a
row (the 500 is written but the flow continues into the insert); run B has
a malformed profile payload, yet responds 200 and inserts the zero-valued
user (the decode error is never consulted).  Both failing runs create
ExternalIdentity state, and run B does not even answer with an error. -/
theorem callback_failures_still_insert :
    let u : DiscordUser := { id := "snow1", globalName := "g", avatar := "v" }
    let wA : CallbackWorld :=
      { state := "randomstate", code := "cA", exchange := .ok { accessToken := "tA" }
        fetch := .ok (200, some u), existsFault := some "timeout" }
    let outA := handleAuthCallback wA emptyStore
    let wB : CallbackWorld :=
      { state := "randomstate", code := "cB", exchange := .ok { accessToken := "tB" }
        fetch := .ok (200, none), existsFault := none }
    let outB := handleAuthCallback wB emptyStore
    (outA.1.status = 500 ∧ outA.2.discordUsers = [u]) ∧
      (outB.1.status = 200 ∧ outB.2.discordUsers = [zeroDiscordUser]) := by
  decide

/-- C7 failing run: with a malformed profile payload the callback does not
answer with a server error and does not stop — it proceeds to the existence
check with the zero-valued user and inserts it next to the rows already
present. -/
theorem callback_malformed_payload_not_aborted :
    let s0 : Store :=
      { nextAccountId := 1, accounts := []
        discordUsers := [{ id := "known", globalName := "k", avatar := "x" }] }
    let w : CallbackWorld :=
      { state := "randomstate", code := "c", exchange := .ok { accessToken := "t" }
        fetch := .ok (200, none), existsFault := none }
    let out := handleAuthCallback w s0
    out.1 = { status := 200, body := .empty } ∧
      out.2.discordUsers = s0.discordUsers ++ [zeroDiscordUser] := by
  decide

/-- C8 counterexample: two account-creation runs that differ only in the
signing secret mint different tokens yet produce byte-identical responses,
and the response body is exactly the database account row — so the freshly
minted token is not part of the HTTP response (it is only printed to the
server's standard output). -/
theorem createAccount_response_carries_no_token :
    let req : CreateAccountRequest := { firstName := "Ada", lastName := "Lovelace" }
    let r1 := handleCreateAccount { jwtSecret := "secret-one" } 7 req emptyStore
    let r2 := handleCreateAccount { jwtSecret := "secret-two" } 7 req emptyStore
    r1.printedToken ≠ r2.printedToken ∧
      r1.response = r2.response ∧
      r1.response =
        { status := 200
          body := .jsonAccount { id := 1, firstName := "Ada", lastName := "Lovelace"
                                 number := 7, balance := 0, createdAt := 0 } } := by
  decide

/-- C8 amended: a successful account-creation run responds 200 with the
created database row as its entire body — an account carrying the assigned
account number, which is non-zero whenever the server-assigned fresh number
is — while the freshly minted token for that account is written to the
server's standard output, not to the response. -/
theorem handleCreateAccount_spec (env : Env) (freshNumber : Int)
    (accRequest : CreateAccountRequest) (s : Store) (h : freshNumber ≠ 0) :
    (handleCreateAccount env freshNumber accRequest s).response.status = 200 ∧
    (handleCreateAccount env freshNumber accRequest s).response.body =
      .jsonAccount { id := s.nextAccountId, firstName := accRequest.firstName
                     lastName := accRequest.lastName, number := freshNumber
                     balance := 0, createdAt := 0 } ∧
    (∀ a : Account,
      (handleCreateAccount env freshNumber accRequest s).response.body = .jsonAccount a →
        a.number ≠ 0) ∧
    (handleCreateAccount env freshNumber accRequest s).printedToken =
      createJwt env (NewAccount freshNumber accRequest.firstName accRequest.lastName) := by
  refine ⟨rfl, rfl, ?_, rfl⟩
  intro a ha
  simp only [handleCreateAccount, CreateAccount, NewAccount, Body.jsonAccount.injEq] at ha
  rw [← ha]
  simpa using h

/-- Witness for C8 amended at a concrete input: fresh number 7, the Ada
Lovelace request, the empty store. -/
theorem handleCreateAccount_spec_witness :
    let env : Env := { jwtSecret := "k" }
    let req : CreateAccountRequest := { firstName := "Ada", lastName := "Lovelace" }
    (7 : Int) ≠ 0 ∧
      ((handleCreateAccount env 7 req emptyStore).response.status = 200 ∧
      (handleCreateAccount env 7 req emptyStore).response.body =
        .jsonAccount { id := emptyStore.nextAccountId, firstName := req.firstName
                       lastName := req.lastName, number := 7
                       balance := 0, createdAt := 0 } ∧
      (∀ a : Account,
        (handleCreateAccount env 7 req emptyStore).response.body = .jsonAccount a →
          a.number ≠ 0) ∧
      (handleCreateAccount env 7 req emptyStore).printedToken =
        createJwt env (NewAccount 7 req.firstName req.lastName)) :=
  ⟨by decide, handleCreateAccount_spec _ _ _ _ (by decide)⟩

/-- C9: UpdateAccount succeeds and returns the store unchanged for every
account and every store state — the declared update capability is a
guaranteed no-op. -/
theorem updateAccount_noop (s : Store) (account : Account) :
    UpdateAccount s account = (Except.ok (), s) :=
  rfl

/-- C10: a DELETE on the protected single-account route with a token that
validates answers 200 with a JSON null body even when no stored account has
the targeted id; the delete of a nonexistent account is not reported as an
error and the store is left as it was. -/
theorem deleteAccount_nonexistent_still_ok (env : Env) (s : Store) (t : JwtToken) (id : Int)
    (htok : (validateJwt env (.wellFormed t)).isOk = true)
    (habsent : ∀ a ∈ s.accounts, a.id ≠ id) :
    accountIdRoute env { method := .DELETE, xJwtToken := some (.wellFormed t), pathId := some id } s
      = ({ status := 200, body := .jsonNull }, s) := by
  have hfil : s.accounts.filter (fun a => !decide (a.id = id)) = s.accounts := by
    rw [List.filter_eq_self]
    intro a ha
    simpa using habsent a ha
  cases hv : validateJwt env (.wellFormed t) with
  | error e =>
    rw [hv] at htok
    simp [Except.isOk, Except.toBool] at htok
  | ok u =>
    simp [accountIdRoute, withJwtAuth, headerGet, hv, makeHttpHandleFunc,
      handleOneAccount, handleDeleteAccount, DeleteAccount]
    rw [hfil]

/-- Witness for C10 at a concrete input: a token minted under the secret in
use, a store holding only account id 1, and a DELETE targeting id 99. -/
theorem deleteAccount_nonexistent_still_ok_witness :
    let env : Env := { jwtSecret := "k" }
    let t : JwtToken :=
      { alg := .HS256, claims := { expiresAt := 15000, accountNumber := 5 }
        sig := hmacSign .HS256 "k" { expiresAt := 15000, accountNumber := 5 } }
    let s : Store :=
      { nextAccountId := 2
        accounts := [{ id := 1, firstName := "Ada", lastName := "Lovelace"
                       number := 5, balance := 0, createdAt := 0 }]
        discordUsers := [] }
    ((validateJwt env (.wellFormed t)).isOk = true ∧ ∀ a ∈ s.accounts, a.id ≠ 99) ∧
      accountIdRoute env { method := .DELETE, xJwtToken := some (.wellFormed t), pathId := some 99 } s
        = ({ status := 200, body := .jsonNull }, s) :=
  ⟨⟨by decide, by decide⟩, deleteAccount_nonexistent_still_ok _ _ _ _ (by decide) (by decide)⟩
